import Mathlib

/-!
Shallow embedding of the land-plot demos in `src/app/page.js`.

The file contains four standalone view components:
* `VirtualLandMap` — a 10×10 grid of plots, ids `"x-z"`, all rendered in the
  single "Unsold" base state, with hover/selection colors;
* `GoogleMapClone` — a Voronoi map with `generateLandName`, a degenerate-shape
  guard in `LandPolygon`, a `selectedId`/`zoom` state;
* `VirtualCity` — a 12×12 grid whose cells draw a random category
  (empty / residential / commercial) and a random building height;
* `NaturalLandMap` — a 15×15 grid with grass / dirt / water cells.

JS `Math.random()` draws are modelled as explicit rational parameters, and the
JS template literal `` `${x}-${z}` `` (decimal rendering of a number followed
by a dash) is modelled by an executable decimal-digits function.
-/

namespace VirtualLand

/-! ## Decimal strings (embedding of JS number-to-string conversion) -/

/-- The decimal digit character for a value `0 ≤ d ≤ 9` (the embedding of how a
JS template literal prints one decimal digit). -/
def decDigit : Nat → Char
  | 0 => '0'
  | 1 => '1'
  | 2 => '2'
  | 3 => '3'
  | 4 => '4'
  | 5 => '5'
  | 6 => '6'
  | 7 => '7'
  | 8 => '8'
  | _ => '9'

/-- Numeric value of a decimal digit character. -/
def decVal (c : Char) : Nat := c.toNat - 48

/-- Decimal digit characters of `n`, most significant first; `fuel` bounds the
recursion depth (any `fuel > n` gives the exact digits). -/
def decChars : Nat → Nat → List Char
  | 0, _ => []
  | fuel + 1, n =>
    if n < 10 then [decDigit n]
    else decChars fuel (n / 10) ++ [decDigit (n % 10)]

/-- Decimal string of a natural number, as a JS template literal prints it. -/
def natStr (n : Nat) : String := ⟨decChars (n + 1) n⟩

/-- The plot id `` `${x}-${z}` `` built by the grid generators. -/
def mkId (x z : Nat) : String := ⟨decChars (x + 1) x ++ '-' :: decChars (z + 1) z⟩

/-- Value of a most-significant-first digit string. -/
def charsVal (l : List Char) : Nat := l.foldl (fun a c => a * 10 + decVal c) 0

theorem decVal_decDigit : ∀ d, d < 10 → decVal (decDigit d) = d := by decide

theorem decDigit_ne_dash (d : Nat) : decDigit d ≠ '-' := by
  rcases d with _ | _ | _ | _ | _ | _ | _ | _ | _ | d <;> simp [decDigit]

theorem charsVal_append (l : List Char) (c : Char) :
    charsVal (l ++ [c]) = charsVal l * 10 + decVal c := by
  simp [charsVal, List.foldl_append]

theorem charsVal_decChars : ∀ fuel n, n < fuel → charsVal (decChars fuel n) = n := by
  intro fuel
  induction fuel with
  | zero => intro n hn; omega
  | succ fuel ih =>
    intro n hn
    by_cases h10 : n < 10
    · simp only [decChars, if_pos h10]
      simpa [charsVal] using decVal_decDigit n h10
    · have hdiv : n / 10 < fuel := by
        have := Nat.div_lt_self (by omega : 0 < n) (by omega : 1 < 10)
        omega
      simp only [decChars, if_neg h10]
      rw [charsVal_append, ih (n / 10) hdiv, decVal_decDigit (n % 10) (Nat.mod_lt n (by omega))]
      omega

theorem decChars_ne_dash : ∀ fuel n c, c ∈ decChars fuel n → c ≠ '-' := by
  intro fuel
  induction fuel with
  | zero => intro n c hc; simp [decChars] at hc
  | succ fuel ih =>
    intro n c hc
    by_cases h10 : n < 10
    · simp only [decChars, if_pos h10, List.mem_singleton] at hc
      subst hc; exact decDigit_ne_dash n
    · simp only [decChars, if_neg h10, List.mem_append, List.mem_singleton] at hc
      rcases hc with hc | hc
      · exact ih (n / 10) c hc
      · subst hc; exact decDigit_ne_dash (n % 10)

theorem append_dash_inj :
    ∀ (a c b d : List Char), '-' ∉ a → '-' ∉ c →
      a ++ '-' :: b = c ++ '-' :: d → a = c ∧ b = d := by
  intro a
  induction a with
  | nil =>
    intro c b d _ hc h
    cases c with
    | nil => simpa using h
    | cons y c =>
      simp only [List.nil_append, List.cons_append, List.cons.injEq] at h
      exact absurd (List.mem_cons_self y c) (h.1 ▸ hc)
  | cons x a ih =>
    intro c b d ha hc h
    cases c with
    | nil =>
      simp only [List.cons_append, List.nil_append, List.cons.injEq] at h
      exact absurd (List.mem_cons_self x a) (h.1.symm ▸ ha)
    | cons y c =>
      simp only [List.cons_append, List.cons.injEq] at h
      have hs := ih c b d (fun m => ha (List.mem_cons_of_mem x m))
        (fun m => hc (List.mem_cons_of_mem y m)) h.2
      exact ⟨by rw [h.1, hs.1], hs.2⟩

theorem mkId_inj (x z x₂ z₂ : Nat) (h : mkId x z = mkId x₂ z₂) : x = x₂ ∧ z = z₂ := by
  have hdata : decChars (x + 1) x ++ '-' :: decChars (z + 1) z
      = decChars (x₂ + 1) x₂ ++ '-' :: decChars (z₂ + 1) z₂ := congrArg String.data h
  have hsplit := append_dash_inj _ _ _ _
    (fun m => decChars_ne_dash (x + 1) x _ m rfl)
    (fun m => decChars_ne_dash (x₂ + 1) x₂ _ m rfl) hdata
  constructor
  · have := congrArg charsVal hsplit.1
    rwa [charsVal_decChars (x + 1) x (by omega), charsVal_decChars (x₂ + 1) x₂ (by omega)] at this
  · have := congrArg charsVal hsplit.2
    rwa [charsVal_decChars (z + 1) z (by omega), charsVal_decChars (z₂ + 1) z₂ (by omega)] at this

/-! ## The grid skeleton shared by the three grid variants

Each grid generator is the double loop
`for (let x = 0; x < N; x++) for (let z = 0; z < N; z++) plots.push(...)`.
With an integer bound `N`, the loop body runs exactly for the integer pairs
`0 ≤ x, z < N` (so not at all when `N ≤ 0`), in lexicographic order. -/

/-- The `(x, z)` pairs visited by the double loop, in push order. -/
def gridCells (N : Int) : List (Nat × Nat) :=
  (List.range N.toNat).flatMap fun x => (List.range N.toNat).map fun z => (x, z)

theorem gridCells_eq_product (N : Int) :
    gridCells N = List.range N.toNat ×ˢ List.range N.toNat := rfl

theorem gridCells_length (N : Int) : (gridCells N).length = N.toNat ^ 2 := by
  rw [gridCells_eq_product, List.length_product, List.length_range, sq]

theorem gridCells_nodup (N : Int) : (gridCells N).Nodup := by
  rw [gridCells_eq_product]
  exact (List.nodup_range _).product (List.nodup_range _)

/-! ## Basic variant (`VirtualLandMap`) -/

/-- Category of a basic-map plot.  The basic map renders every plot in the
single base state the source labels "Unsold" (`baseColor` comment, line 28);
there is no other category in this variant. -/
inductive BasicCategory where
  | unsold
deriving DecidableEq

/-- One record of the `plots` array built by `VirtualLandMap`. -/
structure BasicPlot where
  id : String
  position : ℚ × ℚ × ℚ
  category : BasicCategory
deriving DecidableEq

/-- The `plots` array of `VirtualLandMap`, with the configuration constants
`GRID_SIZE`, `PLOT_SIZE`, `GAP` generalized to parameters:
`position = ((x - N/2) * (size + gap), 0, (z - N/2) * (size + gap))`. -/
def basicPlots (N : Int) (size gap : ℚ) : List BasicPlot :=
  (gridCells N).map fun p =>
    { id := mkId p.1 p.2
      position := (((p.1 : ℚ) - (N : ℚ) / 2) * (size + gap), 0,
                   ((p.2 : ℚ) - (N : ℚ) / 2) * (size + gap))
      category := .unsold }

/-- The basic map as configured in the source: `GRID_SIZE = 10`,
`PLOT_SIZE = 1.0`, `GAP = 0.1`. -/
def virtualLandMapPlots : List BasicPlot := basicPlots 10 1 (1 / 10)

/-- C1: For every integer grid size `N` (and any plot size and gap), the grid
generator produces exactly `N.toNat ^ 2` records (so `N²` for `N > 0`), the
generated ids are pairwise distinct, and the output is empty exactly when
`N ≤ 0` — no error path exists for non-positive `N`. -/
theorem basicPlots_count_unique_ids (N : Int) (size gap : ℚ) :
    (basicPlots N size gap).length = N.toNat ^ 2 ∧
    ((basicPlots N size gap).map BasicPlot.id).Nodup ∧
    (basicPlots N size gap = [] ↔ N ≤ 0) := by
  refine ⟨by simp [basicPlots, gridCells_length], ?_, ?_⟩
  · have hinj : ∀ p ∈ gridCells N, ∀ q ∈ gridCells N,
        (fun c : Nat × Nat => mkId c.1 c.2) p = (fun c : Nat × Nat => mkId c.1 c.2) q →
          p = q := by
      intro p _ q _ h
      obtain ⟨h1, h2⟩ := mkId_inj p.1 p.2 q.1 q.2 h
      exact Prod.ext h1 h2
    have : ((gridCells N).map fun c : Nat × Nat => mkId c.1 c.2).Nodup :=
      (gridCells_nodup N).map_on hinj
    simpa [basicPlots, List.map_map, Function.comp] using this
  · rw [← List.length_eq_zero]
    have hlen : (basicPlots N size gap).length = N.toNat ^ 2 := by
      simp [basicPlots, gridCells_length]
    rw [hlen]
    constructor
    · intro h
      have : N.toNat = 0 := by
        by_contra hne
        exact hne (by nlinarith [sq_nonneg N.toNat] : N.toNat = 0)
      omega
    · intro h
      have : N.toNat = 0 := Int.toNat_of_nonpos h
      simp [this]

theorem gridCells_two : gridCells 2 = [(0, 0), (0, 1), (1, 0), (1, 1)] := by decide

/-- C2 (counterexample): the spec's end-to-end scenario predicts the positions
`(-0.55, 0, -0.55), (-0.55, 0, 0.55), (0.55, 0, -0.55), (0.55, 0, 0.55)` for
the 2×2 grid with `size = 1`, `gap = 0.1`; the generator does not produce that
position list (its centering term is `N/2`, not `(N-1)/2`). -/
theorem basicPlots_2x2_spec_positions_false :
    ¬ ((basicPlots 2 1 (1 / 10)).map BasicPlot.position =
      [(-(11 / 20 : ℚ), 0, -(11 / 20 : ℚ)), (-(11 / 20 : ℚ), 0, (11 / 20 : ℚ)),
       ((11 / 20 : ℚ), 0, -(11 / 20 : ℚ)), ((11 / 20 : ℚ), 0, (11 / 20 : ℚ))]) := by
  have hmap : (basicPlots 2 1 (1 / 10)).map BasicPlot.position =
      [(-(11 / 10 : ℚ), 0, -(11 / 10 : ℚ)), (-(11 / 10 : ℚ), 0, 0),
       (0, 0, -(11 / 10 : ℚ)), (0, 0, 0)] := by
    rw [basicPlots, gridCells_two]
    norm_num [Prod.ext_iff]
  rw [hmap]
  norm_num [Prod.ext_iff]

/-- C2 (amended): the 2×2 basic grid with `size = 1`, `gap = 0.1` consists of
exactly the four records with ids `"0-0", "0-1", "1-0", "1-1"`, positions
`(-1.1, 0, -1.1), (-1.1, 0, 0), (0, 0, -1.1), (0, 0, 0)` in that order, every
record having category `unsold`. -/
theorem basicPlots_2x2_eval :
    basicPlots 2 1 (1 / 10) =
      [⟨"0-0", (-(11 / 10 : ℚ), 0, -(11 / 10 : ℚ)), .unsold⟩,
       ⟨"0-1", (-(11 / 10 : ℚ), 0, 0), .unsold⟩,
       ⟨"1-0", (0, 0, -(11 / 10 : ℚ)), .unsold⟩,
       ⟨"1-1", (0, 0, 0), .unsold⟩] := by
  rw [basicPlots, gridCells_two]
  norm_num [mkId, decChars, decDigit, Prod.ext_iff, String.ext_iff]

/-! ## Natural variant (`NaturalLandMap`) -/

/-- Category of a natural-map plot. -/
inductive NatCategory where
  | grass
  | dirt
  | water
deriving DecidableEq, Fintype

/-- One record of the `plots` array built by `NaturalLandMap.landData`. -/
structure NatPlot where
  id : String
  position : ℚ × ℚ × ℚ
  type : NatCategory
deriving DecidableEq

/-- The per-cell category rule of `NaturalLandMap.landData`:
`if (x < 3 || z > 12) type = 'water'; else if (Math.random() > 0.9) type = 'dirt';`
with the `Math.random()` draw passed in as `r`. -/
def naturalCellType (x z : Nat) (r : ℚ) : NatCategory :=
  if x < 3 ∨ 12 < z then .water
  else if r > 9 / 10 then .dirt
  else .grass

/-- The `landData` array of `NaturalLandMap` (`GRID_SIZE = 15`, `PLOT_SIZE = 1`,
`GAP = 0.05`), with the per-cell random draw supplied by `r`. -/
def naturalLandData (r : Nat → Nat → ℚ) : List NatPlot :=
  (gridCells 15).map fun p =>
    { id := mkId p.1 p.2
      position := (((p.1 : ℚ) - (15 : ℚ) / 2) * (1 + 1 / 20), 0,
                   ((p.2 : ℚ) - (15 : ℚ) / 2) * (1 + 1 / 20))
      type := naturalCellType p.1 p.2 (r p.1 p.2) }

/-- C4: a natural-map cell is assigned `water` exactly when `x < 3 ∨ z > 12`,
whatever the random draw; consequently every record of `landData` built at
such a cell is `water` and no other record is. -/
theorem naturalCellType_water_iff (x z : Nat) (r : ℚ) :
    naturalCellType x z r = .water ↔ (x < 3 ∨ 12 < z) := by
  unfold naturalCellType
  by_cases h : x < 3 ∨ 12 < z
  · simp [h]
  · by_cases hr : r > 9 / 10 <;> simp [h, hr]

/-! ## City variant (`VirtualCity`) -/

/-- Category of a city plot. -/
inductive CityCategory where
  | empty
  | residential
  | commercial
deriving DecidableEq, Fintype

/-- One record of the `plots` array built by `VirtualCity.cityData`. -/
structure CityPlot where
  id : String
  position : ℚ × ℚ × ℚ
  type : CityCategory
  height : ℚ
deriving DecidableEq

/-- The per-cell category/height rule of `VirtualCity.cityData`:
`rand > 0.85` gives a commercial plot of height `Math.random() * 2 + 1.5`,
else `rand > 0.6` gives a residential plot of height `Math.random() * 0.8 + 0.5`,
else the plot is empty with height `0`.  `r` is the category draw and `h` the
height draw made inside the taken branch. -/
def cityCell (r h : ℚ) : CityCategory × ℚ :=
  if r > 17 / 20 then (.commercial, h * 2 + 3 / 2)
  else if r > 3 / 5 then (.residential, h * (4 / 5) + 1 / 2)
  else (.empty, 0)

/-- The `cityData` array of `VirtualCity` (`GRID_SIZE = 12`, `PLOT_SIZE = 1`,
`GAP = 0.15`), with the per-cell draws supplied by `r` and `h`. -/
def cityData (r h : Nat → Nat → ℚ) : List CityPlot :=
  (gridCells 12).map fun p =>
    { id := mkId p.1 p.2
      position := (((p.1 : ℚ) - (12 : ℚ) / 2) * (1 + 3 / 20), 0,
                   ((p.2 : ℚ) - (12 : ℚ) / 2) * (1 + 3 / 20))
      type := (cityCell (r p.1 p.2) (h p.1 p.2)).1
      height := (cityCell (r p.1 p.2) (h p.1 p.2)).2 }

/-- C5: for height draws in `[0, 1)`, an empty city cell has height `0`, a
residential cell has height in `[0.5, 1.3)`, a commercial cell has height in
`[1.5, 3.5)`; hence residential and commercial heights are positive and every
commercial height strictly exceeds every possible residential height. -/
theorem cityCell_height_ranges (r h r₂ h₂ : ℚ)
    (hh0 : 0 ≤ h) (hh1 : h < 1) (hk0 : 0 ≤ h₂) (hk1 : h₂ < 1) :
    ((cityCell r h).1 = .empty → (cityCell r h).2 = 0) ∧
    ((cityCell r h).1 = .residential →
      1 / 2 ≤ (cityCell r h).2 ∧ (cityCell r h).2 < 13 / 10) ∧
    ((cityCell r h).1 = .commercial →
      3 / 2 ≤ (cityCell r h).2 ∧ (cityCell r h).2 < 7 / 2) ∧
    ((cityCell r h).1 = .commercial → (cityCell r₂ h₂).1 = .residential →
      (cityCell r₂ h₂).2 < (cityCell r h).2) := by
  unfold cityCell
  split_ifs <;> simp_all <;> (try constructor) <;> linarith

/-- Witness for `cityCell_height_ranges` at the concrete draws
`r = 0.9, h = 0` (commercial) and `r₂ = 0.7, h₂ = 0` (residential). -/
theorem cityCell_height_ranges_witness :
    (cityCell (7 / 10) 0).2 < (cityCell (9 / 10) 0).2 :=
  (cityCell_height_ranges (9 / 10) 0 (7 / 10) 0
    (by norm_num) (by norm_num) (by norm_num) (by norm_num)).2.2.2
    (by norm_num [cityCell]) (by norm_num [cityCell])

/-! ## Renderer color logic (one function per variant) -/

/-- Color of a basic-map plot
(`isSelected ? selectedColor : hovered ? hoverColor : baseColor`). -/
def basicPlotColor (hovered isSelected : Bool) : String :=
  if isSelected then "#bd00ff" else if hovered then "#00f3ff" else "#1a1a1a"

/-- Base palette of the natural map (`colors` object in the natural
`LandPlot`). -/
def naturalBaseColor : NatCategory → String
  | .grass => "#4d7c0f"
  | .dirt => "#78350f"
  | .water => "#0ea5e9"

/-- Color of a natural-map plot
(`isSelected ? colors.selected : hovered ? "#65a30d" : colors[type]`). -/
def naturalPlotColor (t : NatCategory) (hovered isSelected : Bool) : String :=
  if isSelected then "#facc15" else if hovered then "#65a30d" else naturalBaseColor t

/-- The `(baseColor, glowColor)` pair of a city plot: the mutation chain
`let baseColor = "#050505"; let glowColor = "#000";
if residential … else if commercial … else if (isSelected) …;
if (hovered) glowColor = "#ffffff"`. -/
def cityPlotColor (t : CityCategory) (hovered isSelected : Bool) : String × String :=
  let chain : String × String :=
    if t = .residential then ("#001a33", "#00aaff")
    else if t = .commercial then ("#1a0033", "#bd00ff")
    else if isSelected then ("#330000", "#ff0000")
    else ("#050505", "#000")
  if hovered then (chain.1, "#ffffff") else chain

/-- C3 (counterexample): in the city variant the displayed pair is not a
function of `isSelected` alone — a selected hovered residential plot and a
selected idle empty plot render differently, so selection does not take
precedence over category and hover in every variant. -/
theorem cityPlotColor_selected_not_uniform :
    cityPlotColor .residential true true ≠ cityPlotColor .empty false true := by
  decide

/-- C3 (amended): in the basic and natural renderers `isSelected` beats
`hovered` beats the base category color; in the city renderer the
residential/commercial base color ignores hover and selection, and hovering
forces a white glow color whatever the category and selection. -/
theorem plotColor_precedence :
    (∀ h, basicPlotColor h true = "#bd00ff") ∧
    basicPlotColor true false = "#00f3ff" ∧
    (∀ t h, naturalPlotColor t h true = "#facc15") ∧
    (∀ t, naturalPlotColor t true false = "#65a30d") ∧
    (∀ h s, (cityPlotColor .residential h s).1 = "#001a33") ∧
    (∀ h s, (cityPlotColor .commercial h s).1 = "#1a0033") ∧
    (∀ t s, (cityPlotColor t true s).2 = "#ffffff") := by
  decide

/-! ## Selection state of the grid variants

The scene-wide interaction state is `selectedPlot : Option String`
(`useState(null)`); a plot click runs `onClick(id)` which is
`setSelectedPlot(id)`, and each plot renders with
`isSelected = (selectedPlot === plot.id)`. -/

/-- Effect of clicking a plot on the scene-wide selection
(`setSelectedPlot(id)`). -/
def clickPlot (id : String) (s : Option String) : Option String := some id

/-- The `isSelected` flag a plot with id `id` receives
(`selectedPlot === plot.id`). -/
def isSelectedFlag (s : Option String) (id : String) : Bool := decide (s = some id)

/-- C6: clicking plot `b` while plot `a ≠ b` is selected moves the scene
directly to `selected(b)`: afterwards `b`'s flag is true and `a`'s false; and
in any selection state at most one id has a true flag. -/
theorem clickPlot_switches_selection (s : Option String) (a b : String) (hab : a ≠ b) :
    clickPlot b s = some b ∧
    isSelectedFlag (clickPlot b s) b = true ∧
    isSelectedFlag (clickPlot b s) a = false ∧
    (∀ (t : Option String) (i j : String),
      isSelectedFlag t i = true → isSelectedFlag t j = true → i = j) := by
  refine ⟨rfl, by simp [clickPlot, isSelectedFlag], ?_, ?_⟩
  · simp [clickPlot, isSelectedFlag]
    exact fun h => absurd h.symm hab
  · intro t i j hi hj
    have hi := of_decide_eq_true hi
    have hj := of_decide_eq_true hj
    exact Option.some.inj (hi.symm.trans hj)

/-- Witness for `clickPlot_switches_selection` with `a = "0-0"` selected and a
click on `b = "1-0"`. -/
theorem clickPlot_switches_selection_witness :
    isSelectedFlag (clickPlot "1-0" (some "0-0")) "1-0" = true ∧
    isSelectedFlag (clickPlot "1-0" (some "0-0")) "0-0" = false :=
  ⟨(clickPlot_switches_selection (some "0-0") "0-0" "1-0" (by decide)).2.1,
   (clickPlot_switches_selection (some "0-0") "0-0" "1-0" (by decide)).2.2.1⟩

/-- C9: selection is idempotent — clicking the already-selected plot leaves the
state at `selected(id)`, and a second click on the same plot never changes the
state reached by the first. -/
theorem clickPlot_idempotent (id : String) :
    clickPlot id (some id) = some id ∧
    ∀ s, clickPlot id (clickPlot id s) = clickPlot id s := by
  exact ⟨rfl, fun s => rfl⟩

/-! ## Map-clone variant (`GoogleMapClone`) -/

/-- The two fixed word lists of `generateLandName`. -/
def landNames : List String :=
  ["Greenwood", "Sunnyvale", "Riverdale", "Highland", "Westside",
   "Oakwood", "Maple", "Cedar", "Pine", "Elm"]

/-- The six name suffix words of `generateLandName`. -/
def landTypes : List String :=
  ["District", "Estate", "Heights", "Park", "Grove", "Gardens"]

/-- The word part of a generated land name:
`names[id % names.length] ++ " " ++ types[id % types.length]`
(the indices are always in range, so `getD` returns the listed word). -/
def nameStem (id : Nat) : String :=
  landNames.getD (id % landNames.length) "" ++ " " ++ landTypes.getD (id % landTypes.length) ""

/-- `generateLandName`:
`` `${names[id % names.length]} ${types[id % types.length]} ${id}` ``. -/
def generateLandName (id : Nat) : String :=
  nameStem id ++ " " ++ natStr id

/-- C8 (counterexample): the word part of a generated name is not a function of
`id mod 10` — ids `6` and `16` agree mod 10 yet produce different words
(`"Maple District"` vs `"Maple Grove"`), because the six-element type list is
indexed by `id mod 6`, not `id mod 10`. -/
theorem nameStem_not_mod_ten :
    ¬ (∀ i j : Nat, i % 10 = j % 10 → nameStem i = nameStem j) :=
  fun hmod => absurd (hmod 6 16 rfl) (by decide)

/-- C8 (amended): `displayName` is a deterministic function of the id — the
name word is indexed by `id mod 10`, the type word by `id mod 6` (so the word
part depends only on `id mod 30`), and the decimal id is appended. -/
theorem generateLandName_deterministic :
    (∀ i j : Nat, i % 30 = j % 30 → nameStem i = nameStem j) ∧
    (∀ id : Nat, generateLandName id = nameStem id ++ " " ++ natStr id) ∧
    (∀ i j : Nat, i = j → generateLandName i = generateLandName j) := by
  refine ⟨?_, fun id => rfl, fun i j h => h ▸ rfl⟩
  intro i j h
  have h10 : i % 10 = j % 10 := by
    have hi := Nat.mod_mod_of_dvd i (by norm_num : (10 : ℕ) ∣ 30)
    have hj := Nat.mod_mod_of_dvd j (by norm_num : (10 : ℕ) ∣ 30)
    omega
  have h6 : i % 6 = j % 6 := by
    have hi := Nat.mod_mod_of_dvd i (by norm_num : (6 : ℕ) ∣ 30)
    have hj := Nat.mod_mod_of_dvd j (by norm_num : (6 : ℕ) ∣ 30)
    omega
  simp only [nameStem, landNames, landTypes, List.length_cons, List.length_nil]
  rw [show (0 + 1 + 1 + 1 + 1 + 1 + 1 + 1 + 1 + 1 + 1 : ℕ) = 10 from rfl] at *
  rw [h10, h6]

/-- Witness for `generateLandName_deterministic` at ids `6` and `36`. -/
theorem generateLandName_deterministic_witness : nameStem 6 = nameStem 36 :=
  generateLandName_deterministic.1 6 36 rfl

/-- One record of the `lands` array built by `GoogleMapClone` (`shape` is the
Voronoi cell polygon, which can be `null`). -/
structure LandRec where
  id : Nat
  name : String
  shape : Option (List (ℚ × ℚ))
  color : String
deriving DecidableEq

/-- What `LandPolygon` contributes to the scene for one record. -/
structure RenderedPoly where
  id : Nat
  points : List (ℚ × ℚ)
  color : String
deriving DecidableEq

/-- `LandPolygon` as a total function: the guard
`if (!shape || shape.length < 3) return null` drops a missing or degenerate
shape; otherwise the mesh is built from the shape points with color
`selectedId === land.id ? "#4285F4" : land.color`. -/
def renderLandPolygon (sel : Option Nat) (l : LandRec) : Option RenderedPoly :=
  match l.shape with
  | none => none
  | some pts =>
    if pts.length < 3 then none
    else some
      { id := l.id
        points := pts
        color := if sel = some l.id then "#4285F4" else l.color }

/-- The rendered output set of the scene: every land mapped through
`LandPolygon`, keeping the non-`null` results. -/
def renderScene (sel : Option Nat) (lands : List LandRec) : List RenderedPoly :=
  lands.filterMap (renderLandPolygon sel)

/-- C7: a record whose shape is missing or has fewer than 3 points renders to
nothing, and dropping it from any scene leaves the rendered output unchanged —
the remaining records still render, with no error value anywhere
(`renderLandPolygon` is total). -/
theorem renderScene_skips_degenerate (sel : Option Nat) (l : LandRec)
    (hdeg : l.shape = none ∨ ∃ pts, l.shape = some pts ∧ pts.length < 3) :
    renderLandPolygon sel l = none ∧
    ∀ pre post, renderScene sel (pre ++ l :: post) = renderScene sel (pre ++ post) := by
  have hnone : renderLandPolygon sel l = none := by
    rcases hdeg with h | ⟨pts, hp, hlen⟩
    · simp [renderLandPolygon, h]
    · simp [renderLandPolygon, hp, if_pos hlen]
  refine ⟨hnone, fun pre post => ?_⟩
  simp [renderScene, List.filterMap_append, List.filterMap_cons, hnone]

/-- Witness for `renderScene_skips_degenerate`: a two-point shape is skipped. -/
theorem renderScene_skips_degenerate_witness :
    renderLandPolygon none ⟨0, "Greenwood District 0", some [(0, 0), (1, 0)], "#F8F9FA"⟩
      = none :=
  (renderScene_skips_degenerate none
    ⟨0, "Greenwood District 0", some [(0, 0), (1, 0)], "#F8F9FA"⟩
    (Or.inr ⟨[(0, 0), (1, 0)], rfl, by decide⟩)).1

/-! ## Map-clone interaction state -/

/-- The pointer/UI events the map-clone wires up: `LandPolygon` has only an
`onClick` handler (no pointer-over/out), and the two zoom buttons run
`setZoom(z => min(z + 5, 50))` and `setZoom(z => max(z - 5, 10))`. -/
inductive MapEvent where
  | pointerEnter (i : Nat)
  | pointerLeave (i : Nat)
  | clickLand (i : Nat)
  | zoomIn
  | zoomOut
deriving DecidableEq

/-- The whole mutable state of `GoogleMapClone`:
`selectedId` (`useState(null)`) and `zoom` (`useState(15)`). -/
structure MapState where
  selectedId : Option Nat
  zoom : ℚ
deriving DecidableEq

/-- One event step of `GoogleMapClone`.  Pointer enter/leave have no handler in
this variant, so they are the identity on the state. -/
def mapStep (s : MapState) : MapEvent → MapState
  | .pointerEnter _ => s
  | .pointerLeave _ => s
  | .clickLand i => { s with selectedId := some i }
  | .zoomIn => { s with zoom := min (s.zoom + 5) 50 }
  | .zoomOut => { s with zoom := max (s.zoom - 5) 10 }

/-- C10: in the map-clone variant pointer-enter and pointer-leave change no
state at all; a click only sets `selectedId` (leaving `zoom` unchanged) and the
zoom buttons only change `zoom` (leaving `selectedId` unchanged). -/
theorem mapStep_frame_conditions (s : MapState) (i : Nat) :
    mapStep s (.pointerEnter i) = s ∧
    mapStep s (.pointerLeave i) = s ∧
    (mapStep s (.clickLand i)).zoom = s.zoom ∧
    (mapStep s (.clickLand i)).selectedId = some i ∧
    (mapStep s .zoomIn).selectedId = s.selectedId ∧
    (mapStep s .zoomOut).selectedId = s.selectedId :=
  ⟨rfl, rfl, rfl, rfl, rfl, rfl⟩

end VirtualLand
